import Mathlib

/-
Verification of the Titan1280 thermal-camera viewer
(src/titan1280_mac_v1.0.2.0.py).

The per-frame pipeline and the serial/settings helpers are shallowly
embedded.  Images are lists of rows; a pixel of the captured BGR frame is a
triple of channel bytes.  The numpy float32 arithmetic of the normalization
path is modelled with exact rationals (every quantity the claims touch is an
integer or a half-integer well inside float32's exact range, so rounding
cannot move any truncated 8-bit result across an integer boundary).
Python `int(...)` and `.astype(np.uint8)` (applied after a clip to
[0, 255]) are truncation toward zero.
-/

namespace Titan1280

/-! ### Bit-plane decoder (main loop, lines 849-860) -/

/-- One pixel of the captured 8-bit, 3-channel BGR frame; `c0`, `c1`, `c2`
are the channel bytes at indices 0, 1, 2. -/
structure Pixel where
  c0 : Nat
  c1 : Nat
  c2 : Nat
deriving DecidableEq

/-- A captured image (`frame` in the main loop): a list of rows of pixels. -/
abbrev Image := List (List Pixel)

/-- Fixed split column of the dual-half frame: `frame[:, :1280, :]` versus
`frame[:, 1280:, :]`. -/
def SPLIT : Nat := 1280

/-- Left half `b1 = frame[:, :1280, :]`. -/
def leftHalf (frame : Image) : Image :=
  frame.map fun row => row.take SPLIT

/-- Right half `b2 = frame[:, 1280:, :]`. -/
def rightHalf (frame : Image) : Image :=
  frame.map fun row => row.drop SPLIT

/-- Channel-1 plane of an image (the `[:, :, 1]` selection). -/
def channel1Plane (img : Image) : List (List Nat) :=
  img.map fun row => row.map Pixel.c1

/-- High-byte plane `high = b1[:, :, 1]`. -/
def highPlane (frame : Image) : List (List Nat) :=
  channel1Plane (leftHalf frame)

/-- Low-byte plane `low = b2[:, :, 1]`. -/
def lowPlane (frame : Image) : List (List Nat) :=
  channel1Plane (rightHalf frame)

/-- Bit-plane reconstruction `gray16 = (high << 8) | low`, elementwise over
the two planes. -/
def decode (frame : Image) : List (List Nat) :=
  List.zipWith (fun hrow lrow => List.zipWith (fun h l => (h <<< 8) ||| l) hrow lrow)
    (highPlane frame) (lowPlane frame)

/-- Sample of a 2-D array of naturals at row `y`, column `x` (0 outside). -/
def get2D (m : List (List Nat)) (y x : Nat) : Nat :=
  (m.getD y []).getD x 0

/-- Pixel of an image at row `y`, column `x` (a zero pixel outside). -/
def getPixel (frame : Image) (y x : Nat) : Pixel :=
  (frame.getD y []).getD x ⟨0, 0, 0⟩

/-! ### Normalization (main loop, lines 863-883) -/

/-- Exact-rational model of `np.clip(x, lo, hi)`. -/
def npClip (lo hi x : ℚ) : ℚ := max lo (min hi x)

/-- Conversion `.astype(np.uint8)` as applied in the pipeline, always after a
clip to `[0, 255]`: truncation toward zero, i.e. the floor of the
nonnegative clipped value. -/
def toUInt8 (x : ℚ) : Nat := (⌊x⌋).toNat

/-- Insert a value into an ascending list, keeping it ascending. -/
def insertAsc (x : Nat) : List Nat → List Nat
  | [] => [x]
  | y :: ys => if x ≤ y then x :: y :: ys else y :: insertAsc x ys

/-- Ascending insertion sort: the sorted view of the samples over which
`np.percentile` interpolates. -/
def sortAsc (l : List Nat) : List Nat := l.foldr insertAsc []

/-- Linear-interpolated percentile, the default `np.percentile(data, q)`
semantics: position `q / 100 * (n - 1)` into the sorted samples,
interpolating between the two neighbouring order statistics. -/
def npPercentile (q : ℚ) (data : List Nat) : ℚ :=
  let s := sortAsc data
  let n := s.length
  let pos : ℚ := q / 100 * ((n : ℚ) - 1)
  let i : Nat := (⌊pos⌋).toNat
  let a : ℚ := ((s.getD i 0 : Nat) : ℚ)
  let b : ℚ := ((s.getD (min (i + 1) (n - 1)) 0 : Nat) : ℚ)
  a + (pos - (i : ℚ)) * (b - a)

/-- Auto-range low bound
`low_val = np.percentile(gray16, AUTO_RANGE_LOW_PERCENTILE)`. -/
def autoLow (lowP : ℚ) (gray16 : List (List Nat)) : ℚ :=
  npPercentile lowP gray16.flatten

/-- Auto-range high bound before the degenerate-range guard,
`high_val = np.percentile(gray16, AUTO_RANGE_HIGH_PERCENTILE)`. -/
def autoHighRaw (highP : ℚ) (gray16 : List (List Nat)) : ℚ :=
  npPercentile highP gray16.flatten

/-- Guarded high bound: `if high_val <= low_val: high_val = low_val + 1`. -/
def autoHigh (lowP highP : ℚ) (gray16 : List (List Nat)) : ℚ :=
  let low := autoLow lowP gray16
  let high := autoHighRaw highP gray16
  if high ≤ low then low + 1 else high

/-- Per-sample auto normalization:
`(x - low_val) / (high_val - low_val) * 255`, clipped to `[0, 255]` and
converted to uint8. -/
def autoNormSample (low high : ℚ) (x : Nat) : Nat :=
  toUInt8 (npClip 0 255 (((x : ℚ) - low) / (high - low) * 255))

/-- Auto-range normalization of the main loop (percentile bounds, guard,
scale, clip, uint8 conversion). -/
def autoNormalize (lowP highP : ℚ) (gray16 : List (List Nat)) : List (List Nat) :=
  let low := autoLow lowP gray16
  let high := autoHigh lowP highP gray16
  gray16.map fun row => row.map (autoNormSample low high)

/-- Per-sample manual normalization:
`(x - manual_offset) / manual_range * 255`, clipped to `[0, 255]` and
converted to uint8. -/
def manualNormSample (offset range : Nat) (x : Nat) : Nat :=
  toUInt8 (npClip 0 255 (((x : ℚ) - (offset : ℚ)) / (range : ℚ) * 255))

/-- Manual normalization of the main loop. -/
def manualNormalize (offset range : Nat) (gray16 : List (List Nat)) : List (List Nat) :=
  gray16.map fun row => row.map (manualNormSample offset range)

/-! ### Serial reader log (serial_read_thread, lines 145-162) -/

/-- One reader append to `serial_rx_buffer`: `append(hex_str)` followed by
`pop(0)` whenever the length exceeds 10. -/
def rxAppend (buf : List String) (msg : String) : List String :=
  let b := buf ++ [msg]
  if 10 < b.length then b.drop 1 else b

/-! ### Serial send (serial_send, lines 164-178) -/

/-- Value of a hex digit accepted by Python `bytes.fromhex`. -/
def hexDigitVal (c : Char) : Option Nat :=
  if '0' ≤ c ∧ c ≤ '9' then some (c.toNat - 48)
  else if 'a' ≤ c ∧ c ≤ 'f' then some (c.toNat - 87)
  else if 'A' ≤ c ∧ c ≤ 'F' then some (c.toNat - 55)
  else none

/-- Python `bytes.fromhex` over a character list: pairs of hex digits with
spaces allowed between pairs; `none` models the `ValueError` branch. -/
def fromhexAux : List Char → Option (List Nat)
  | [] => some []
  | [c] => if c = ' ' then some [] else none
  | c :: d :: rest =>
    if c = ' ' then fromhexAux (d :: rest)
    else
      match hexDigitVal c, hexDigitVal d, fromhexAux rest with
      | some hi, some lo, some l => some ((16 * hi + lo) :: l)
      | _, _, _ => none

/-- Python `bytes.fromhex(text)` as called in `serial_send`. -/
def bytesFromhex (text : String) : Option (List Nat) :=
  fromhexAux text.toList

/-- Serial-channel state visible to `serial_send`: the connection object
(`none` when `serial_connection is None`, `some b` for a connection whose
`is_open` is `b`), the bytes written to the transport so far, and the
`serial_tx_buffer` draft text. -/
structure SerialState where
  conn : Option Bool
  written : List Nat
  txDraft : String
deriving DecidableEq

/-- Python truthiness of `serial_connection and serial_connection.is_open`. -/
def connIsOpen (st : SerialState) : Bool :=
  match st.conn with
  | some b => b
  | none => false

/-- Model of `serial_send(text)`: with an open connection, parse the text
with `bytes.fromhex`; on success write the bytes and return True, on a
`ValueError` return False with nothing written; with no open connection
return False.  The draft `txDraft` is never touched by this function.
Returns the flag together with the new state. -/
def serial_send (st : SerialState) (text : String) : Bool × SerialState :=
  if connIsOpen st then
    match bytesFromhex text with
    | some bs => (true, { st with written := st.written ++ bs })
    | none => (false, st)
  else (false, st)

/-! ### Settings persistence (load_settings / save_settings, lines 185-259) -/

/-- The JSON settings record; a field is `none` when the key is absent, so
that `settings.get(key, default)` yields the default. -/
structure PersistedSettings where
  palette_index : Option Nat := none
  invert : Option Bool := none
  auto_range : Option Bool := none
  offset : Option Int := none
  range : Option Int := none
  show_histogram : Option Bool := none
  sharpen_index : Option Nat := none
  show_cursor_readout : Option Bool := none
  last_serial_port : Option String := none
  last_baud_rate : Option Nat := none

/-- The fixed baud-rate table `BAUD_RATES`. -/
def BAUD_RATES : List Nat :=
  [9600, 19200, 38400, 57600, 115200, 230400, 460800, 921600]

/-- The `manual_range = settings.get('range', 65535)` assignment performed by
`load_settings`: the persisted value is taken as is, with no clamp. -/
def load_manual_range (s : PersistedSettings) : Int :=
  s.range.getD 65535

/-- Outcome of the serial part of `load_settings`: the `(port, baud)` pair
handed to `serial.Serial` when an automatic reconnect is attempted (`none`
when no attempt is made), and the final selection indices. -/
structure LoadSerialOutcome where
  attempt : Option (String × Nat)
  portIdx : Nat
  baudIdx : Nat
deriving DecidableEq

/-- Serial part of `load_settings`, given the persisted record, the currently
enumerable ports and the selection indices at entry.  Mirrors the source
order: the reconnect (`connect_serial`, which reads
`baud = BAUD_RATES[selected_baud_index]`) runs before `selected_baud_index`
is restored from the persisted baud rate. -/
def load_serial_settings (s : PersistedSettings) (ports : List String)
    (portIdx0 baudIdx0 : Nat) : LoadSerialOutcome :=
  let lastBaud := s.last_baud_rate.getD 115200
  let step :=
    match s.last_serial_port with
    | some p =>
      if p ≠ "" ∧ p ∈ ports then
        (some (p, BAUD_RATES.getD baudIdx0 0), ports.indexOf p)
      else (none, portIdx0)
    | none => (none, portIdx0)
  let baudIdx := if lastBaud ∈ BAUD_RATES then BAUD_RATES.indexOf lastBaud else 4
  ⟨step.1, step.2, baudIdx⟩

/-- Program state around `save_settings`'s update of the last-used serial
values: the scanned port list, the selection indices, and whether a live
connection is open.  The last field is part of the program state but
`save_settings` never consults it. -/
structure AppSerialState where
  available_ports : List String
  selected_port_index : Nat
  selected_baud_index : Nat
  connected : Bool
deriving DecidableEq

/-- The `last_serial_port` value written by `save_settings`:
`available_ports[selected_port_index]` whenever the list is truthy and the
index is in range, else `None`. -/
def save_last_serial_port (st : AppSerialState) : Option String :=
  if st.available_ports ≠ [] ∧ st.selected_port_index < st.available_ports.length then
    some (st.available_ports.getD st.selected_port_index "")
  else none

/-- The `last_baud_rate` value written by `save_settings`:
`BAUD_RATES[selected_baud_index]`. -/
def save_last_baud_rate (st : AppSerialState) : Nat :=
  BAUD_RATES.getD st.selected_baud_index 0

/-! ### Sliders (update_slider_value, lines 339-351) -/

/-- Python `int(...)` on a rational: truncation toward zero. -/
def pyInt (q : ℚ) : Int :=
  if q < 0 then -⌊-q⌋ else ⌊q⌋

/-- The clamped value computed by `update_slider_value` for a slider with
geometry `sx`, `sw` and bounds `smin`, `smax`, at mouse abscissa `x`. -/
def update_slider_value (sx sw smin smax : Int) (x : Int) : Int :=
  let relx : Int := max 0 (min (x - sx) sw)
  let frac : ℚ := (relx : ℚ) / (sw : ℚ)
  let value0 : Int := pyInt ((smin : ℚ) + frac * ((smax : ℚ) - (smin : ℚ)))
  max smin (min smax value0)

/-- New `manual_range` after a drag of the Range slider (bounds `min=1`,
`max=65535`, geometry `x=270`, `w=200`): `manual_range = max(1, value)`. -/
def range_slider_update (x : Int) : Int :=
  max 1 (update_slider_value 270 200 1 65535 x)

/-! ### Theorems -/

/-- C1: for every captured dual-half frame, the decoded 16-bit sample at
`(y, x)` equals `(highByte <<< 8) ||| lowByte`, where `highByte` is the
fixed channel (index 1) of the left half at that pixel — pixel `(y, x)` of
the frame — and `lowByte` is the same channel of the right half at that
pixel — pixel `(y, SPLIT + x)` of the frame.  The first conjunct states it
over the extracted byte planes, the second over the original frame. -/
theorem decode_eq_high_shl_or_low (frame : Image) (y x : Nat)
    (hy : y < frame.length) (hx : x < SPLIT)
    (hrow : SPLIT + x < (frame.getD y []).length) :
    get2D (decode frame) y x
        = (get2D (highPlane frame) y x <<< 8) ||| get2D (lowPlane frame) y x ∧
    get2D (decode frame) y x
        = ((getPixel frame y x).c1 <<< 8) ||| (getPixel frame y (SPLIT + x)).c1 := by
  rw [List.getD_eq_getElem frame [] hy] at hrow
  have hxr : x < frame[y].length := by omega
  have hdy : y < (decode frame).length := by
    simp only [decode, highPlane, lowPlane, channel1Plane, leftHalf, rightHalf,
      List.length_zipWith, List.length_map, min_self]
    exact hy
  have hhy : y < (highPlane frame).length := by
    simp only [highPlane, channel1Plane, leftHalf, List.length_map]
    exact hy
  have hly : y < (lowPlane frame).length := by
    simp only [lowPlane, channel1Plane, rightHalf, List.length_map]
    exact hy
  have hhrow : (highPlane frame)[y] = (frame[y].take SPLIT).map Pixel.c1 := by
    simp [highPlane, channel1Plane, leftHalf]
  have hlrow : (lowPlane frame)[y] = (frame[y].drop SPLIT).map Pixel.c1 := by
    simp [lowPlane, channel1Plane, rightHalf]
  have hrowdec : (decode frame)[y]
      = List.zipWith (fun h l => (h <<< 8) ||| l)
          ((frame[y].take SPLIT).map Pixel.c1) ((frame[y].drop SPLIT).map Pixel.c1) := by
    simp only [decode]
    rw [List.getElem_zipWith, hhrow, hlrow]
  have hxtake : x < ((frame[y].take SPLIT).map Pixel.c1).length := by
    simp only [List.length_map, List.length_take]
    omega
  have hxdrop : x < ((frame[y].drop SPLIT).map Pixel.c1).length := by
    simp only [List.length_map, List.length_drop]
    omega
  have hxz : x < (List.zipWith (fun h l => (h <<< 8) ||| l)
      ((frame[y].take SPLIT).map Pixel.c1) ((frame[y].drop SPLIT).map Pixel.c1)).length := by
    rw [List.length_zipWith]
    omega
  have hdec : get2D (decode frame) y x = (frame[y][x]).c1 <<< 8 ||| (frame[y][SPLIT + x]).c1 := by
    rw [get2D, List.getD_eq_getElem _ _ hdy, hrowdec, List.getD_eq_getElem _ _ hxz,
      List.getElem_zipWith, List.getElem_map, List.getElem_map, List.getElem_take,
      List.getElem_drop]
  have hhigh : get2D (highPlane frame) y x = (frame[y][x]).c1 := by
    rw [get2D, List.getD_eq_getElem _ _ hhy, hhrow, List.getD_eq_getElem _ _ hxtake,
      List.getElem_map, List.getElem_take]
  have hlow : get2D (lowPlane frame) y x = (frame[y][SPLIT + x]).c1 := by
    rw [get2D, List.getD_eq_getElem _ _ hly, hlrow, List.getD_eq_getElem _ _ hxdrop,
      List.getElem_map, List.getElem_drop]
  have hpix1 : getPixel frame y x = frame[y][x] := by
    rw [getPixel, List.getD_eq_getElem frame [] hy, List.getD_eq_getElem _ _ hxr]
  have hpix2 : getPixel frame y (SPLIT + x) = frame[y][SPLIT + x] := by
    rw [getPixel, List.getD_eq_getElem frame [] hy, List.getD_eq_getElem _ _ hrow]
  exact ⟨by rw [hdec, hhigh, hlow], by rw [hdec, hpix1, hpix2]⟩

/-- Witness for `decode_eq_high_shl_or_low` on a one-row frame 1281 pixels
wide whose channel-1 bytes are all 7. -/
theorem decode_eq_high_shl_or_low_witness :
    get2D (decode [List.replicate 1281 ⟨3, 7, 1⟩]) 0 0
        = (get2D (highPlane [List.replicate 1281 ⟨3, 7, 1⟩]) 0 0 <<< 8) |||
            get2D (lowPlane [List.replicate 1281 ⟨3, 7, 1⟩]) 0 0 ∧
    get2D (decode [List.replicate 1281 ⟨3, 7, 1⟩]) 0 0
        = ((getPixel [List.replicate 1281 ⟨3, 7, 1⟩] 0 0).c1 <<< 8) |||
            (getPixel [List.replicate 1281 ⟨3, 7, 1⟩] 0 (SPLIT + 0)).c1 :=
  decode_eq_high_shl_or_low [List.replicate 1281 ⟨3, 7, 1⟩] 0 0
    (by rw [List.length_singleton]; norm_num)
    (by norm_num [SPLIT])
    (by rw [List.getD_cons_zero, List.length_replicate]; norm_num [SPLIT])

/-- C3: in manual mode, for every width of at least 1 and every offset, a
sample equal to the offset normalizes to 0 and a sample equal to
offset + width normalizes to 255 after clipping; in particular, for offset
1000 and width 2000, the sample value 2000 normalizes to 127 under
clamping and truncation. -/
theorem manual_normalize_endpoints (offset width : Nat) (hw : 1 ≤ width) :
    manualNormSample offset width offset = 0 ∧
    manualNormSample offset width (offset + width) = 255 ∧
    manualNormSample 1000 2000 2000 = 127 := by
  have hwQ : (width : ℚ) ≠ 0 := Nat.cast_ne_zero.mpr (by omega)
  refine ⟨?_, ?_, ?_⟩
  · have hval : (((offset : Nat) : ℚ) - (offset : ℚ)) / (width : ℚ) * 255 = 0 := by
      rw [sub_self, zero_div, zero_mul]
    rw [manualNormSample, hval]
    have hclip : npClip 0 255 (0 : ℚ) = 0 := by
      rw [npClip, min_eq_right (by norm_num), max_self]
    rw [hclip, toUInt8, Int.floor_zero, Int.toNat_zero]
  · have hval : (((offset + width : Nat) : ℚ) - (offset : ℚ)) / (width : ℚ) * 255 = 255 := by
      push_cast
      rw [add_sub_cancel_left, div_self hwQ, one_mul]
    rw [manualNormSample, hval]
    have hclip : npClip 0 255 (255 : ℚ) = 255 := by
      rw [npClip, min_self, max_eq_right (by norm_num)]
    rw [hclip, toUInt8]
    have hfl : ⌊(255 : ℚ)⌋ = 255 := by norm_num
    rw [hfl]
    rfl
  · have hval : (((2000 : Nat) : ℚ) - ((1000 : Nat) : ℚ)) / ((2000 : Nat) : ℚ) * 255
        = 255 / 2 := by norm_num
    rw [manualNormSample, hval]
    have hclip : npClip 0 255 (255 / 2 : ℚ) = 255 / 2 := by
      rw [npClip, min_eq_right (by norm_num), max_eq_right (by norm_num)]
    rw [hclip, toUInt8]
    have hfl : ⌊(255 / 2 : ℚ)⌋ = 127 := by
      rw [Int.floor_eq_iff]; norm_num
    rw [hfl]
    rfl

/-- Witness for `manual_normalize_endpoints` at offset 1000 and width 2000. -/
theorem manual_normalize_endpoints_witness :
    manualNormSample 1000 2000 1000 = 0 ∧
    manualNormSample 1000 2000 (1000 + 2000) = 255 ∧
    manualNormSample 1000 2000 2000 = 127 :=
  manual_normalize_endpoints 1000 2000 (by norm_num)

/-- The 2-by-2 scenario frame of the spec: samples [[0, 65535], [30000, 30000]]. -/
def scenarioFrame : List (List Nat) := [[0, 65535], [30000, 30000]]

/-- Low percentile bound of the scenario frame at q = 0: the minimum, 0. -/
theorem scenario_autoLow : autoLow 0 scenarioFrame = 0 := by
  have hs : sortAsc scenarioFrame.flatten = [0, 30000, 30000, 65535] := by decide
  simp only [autoLow, npPercentile, hs]
  norm_num

/-- Raw high percentile bound of the scenario frame at q = 100: the
maximum, 65535. -/
theorem scenario_autoHighRaw : autoHighRaw 100 scenarioFrame = 65535 := by
  have hs : sortAsc scenarioFrame.flatten = [0, 30000, 30000, 65535] := by decide
  simp only [autoHighRaw, npPercentile, hs]
  have hpos : (100 : ℚ) / 100 * ((([0, 30000, 30000, 65535] : List Nat).length : ℚ) - 1)
      = 3 := by norm_num
  rw [hpos]
  have hfl : ⌊(3 : ℚ)⌋ = 3 := by
    rw [Int.floor_eq_iff]; norm_num
  rw [hfl]
  have h1 : ([0, 30000, 30000, 65535] : List Nat).getD ((3 : ℤ).toNat) 0 = 65535 := rfl
  have h2 : ([0, 30000, 30000, 65535] : List Nat).getD
      (((3 : ℤ).toNat + 1) ⊓ (([0, 30000, 30000, 65535] : List Nat).length - 1)) 0
      = 65535 := rfl
  have h3 : ((((3 : ℤ).toNat : ℕ)) : ℚ) = 3 := by
    rw [show (3 : ℤ).toNat = 3 from rfl]
    norm_num
  rw [h1, h2, h3]
  ring

/-- Guarded high bound of the scenario frame: the guard does not fire. -/
theorem scenario_autoHigh : autoHigh 0 100 scenarioFrame = 65535 := by
  simp only [autoHigh]
  rw [scenario_autoLow, scenario_autoHighRaw]
  norm_num

/-- Sample 0 of the scenario normalizes to 0. -/
theorem scenario_sample0 : autoNormSample 0 65535 0 = 0 := by
  have hval : (((0 : Nat) : ℚ) - 0) / (65535 - 0) * 255 = 0 := by norm_num
  rw [autoNormSample, hval]
  have hclip : npClip 0 255 (0 : ℚ) = 0 := by
    rw [npClip, min_eq_right (by norm_num), max_self]
  rw [hclip, toUInt8, Int.floor_zero, Int.toNat_zero]

/-- Sample 65535 of the scenario normalizes to 255. -/
theorem scenario_sample65535 : autoNormSample 0 65535 65535 = 255 := by
  have hval : (((65535 : Nat) : ℚ) - 0) / (65535 - 0) * 255 = 255 := by norm_num
  rw [autoNormSample, hval]
  have hclip : npClip 0 255 (255 : ℚ) = 255 := by
    rw [npClip, min_self, max_eq_right (by norm_num)]
  rw [hclip, toUInt8]
  have hfl : ⌊(255 : ℚ)⌋ = 255 := by norm_num
  rw [hfl]
  rfl

/-- Sample 30000 of the scenario normalizes to 116 under truncation:
30000 / 65535 * 255 = 30000 / 257 is strictly between 116 and 117. -/
theorem scenario_sample30000 : autoNormSample 0 65535 30000 = 116 := by
  have hval : (((30000 : Nat) : ℚ) - 0) / (65535 - 0) * 255 = 30000 / 257 := by norm_num
  rw [autoNormSample, hval]
  have hclip : npClip 0 255 (30000 / 257 : ℚ) = 30000 / 257 := by
    rw [npClip, min_eq_right (by norm_num), max_eq_right (by norm_num)]
  rw [hclip, toUInt8]
  have hfl : ⌊(30000 / 257 : ℚ)⌋ = 116 := by
    rw [Int.floor_eq_iff]; norm_num
  rw [hfl]
  rfl

/-- Full evaluation of auto normalization on the scenario frame. -/
theorem scenario_autoNormalize :
    autoNormalize 0 100 scenarioFrame = [[0, 255], [116, 116]] := by
  simp only [autoNormalize, scenario_autoLow, scenario_autoHigh]
  simp only [scenarioFrame, List.map_cons, List.map_nil]
  rw [scenario_sample0, scenario_sample65535, scenario_sample30000]

/-- C2 counterexample: on the frame [[0, 65535], [30000, 30000]] with auto
percentiles (0, 100), the pipeline's output is not the claimed
[[0, 255], [117, 117]]: sample 30000 truncates to 116, not 117. -/
theorem auto_scenario_not_117 :
    autoNormalize 0 100 scenarioFrame ≠ [[0, 255], [117, 117]] := by
  rw [scenario_autoNormalize]
  decide

/-- C2 amended: on the frame [[0, 65535], [30000, 30000]] with auto
percentiles (0, 100), auto normalization computes low = 0 and high = 65535
and produces the 8-bit output [[0, 255], [116, 116]] under integer
truncation. -/
theorem auto_scenario_output_116 :
    autoLow 0 scenarioFrame = 0 ∧
    autoHigh 0 100 scenarioFrame = 65535 ∧
    autoNormalize 0 100 scenarioFrame = [[0, 255], [116, 116]] :=
  ⟨scenario_autoLow, scenario_autoHigh, scenario_autoNormalize⟩

/-- C10: calling `serial_send` when no serial connection is open — the
connection object is `None` or its `is_open` is false — returns False,
writes no bytes to any transport and changes no state, for every input
text.  Totality of the model reflects that no exception escapes. -/
theorem serial_send_closed_noop (st : SerialState) (text : String)
    (hclosed : connIsOpen st = false) :
    serial_send st text = (false, st) := by
  simp [serial_send, hclosed]

/-- Witness for `serial_send_closed_noop` at the disconnected state and the
text "AA05". -/
theorem serial_send_closed_noop_witness :
    serial_send ⟨none, [], ""⟩ "AA05" = (false, ⟨none, [], ""⟩) :=
  serial_send_closed_noop ⟨none, [], ""⟩ "AA05" (by rfl)

/-- C6: with an open connection, `serial_send` of the malformed hex text
"ZZ" is rejected: it returns False, writes nothing, and leaves the whole
state — `serial_tx_buffer` draft included — unchanged; `serial_send` of
"AA05" returns True and writes exactly the bytes 0xAA, 0x05. -/
theorem serial_send_hex_validation (st : SerialState)
    (hopen : connIsOpen st = true) :
    serial_send st "ZZ" = (false, st) ∧
    (serial_send st "ZZ").2.txDraft = st.txDraft ∧
    serial_send st "AA05" = (true, { st with written := st.written ++ [0xAA, 0x05] }) := by
  have hz : bytesFromhex "ZZ" = none := by decide
  have ha : bytesFromhex "AA05" = some [0xAA, 0x05] := by decide
  refine ⟨?_, ?_, ?_⟩ <;> simp [serial_send, hopen, hz, ha]

/-- Witness for `serial_send_hex_validation` at an open connection holding
the draft "ZZ". -/
theorem serial_send_hex_validation_witness :
    serial_send ⟨some true, [], "ZZ"⟩ "ZZ" = (false, ⟨some true, [], "ZZ"⟩) ∧
    (serial_send ⟨some true, [], "ZZ"⟩ "ZZ").2.txDraft = "ZZ" ∧
    serial_send ⟨some true, [], "ZZ"⟩ "AA05" = (true, ⟨some true, [0xAA, 0x05], "ZZ"⟩) :=
  serial_send_hex_validation ⟨some true, [], "ZZ"⟩ (by rfl)

/-- Inserting the common value into a flat ascending list prepends it. -/
theorem insertAsc_flat (k : Nat) (l : List Nat) (h : ∀ v ∈ l, v = k) :
    insertAsc k l = k :: l := by
  cases l with
  | nil => rfl
  | cons a t =>
    have ha : a = k := h a (by simp)
    simp [insertAsc, ha]

/-- Sorting a flat list returns it unchanged. -/
theorem sortAsc_flat (k : Nat) (l : List Nat) (h : ∀ v ∈ l, v = k) :
    sortAsc l = l := by
  induction l with
  | nil => rfl
  | cons a t ih =>
    have ha : a = k := h a (by simp)
    have ht : ∀ v ∈ t, v = k := fun v hv => h v (by simp [hv])
    have hstep : sortAsc (a :: t) = insertAsc a (sortAsc t) := rfl
    rw [hstep, ih ht, ha, insertAsc_flat k t ht]

/-- The 0th percentile of a nonempty flat list is its common value. -/
theorem npPercentile_zero_flat (k : Nat) (l : List Nat) (hne : l ≠ [])
    (h : ∀ v ∈ l, v = k) : npPercentile 0 l = k := by
  have hs := sortAsc_flat k l h
  obtain ⟨a, t, rfl⟩ := List.exists_cons_of_ne_nil hne
  have ha : a = k := h a (by simp)
  simp only [npPercentile, hs]
  simp [ha]

/-- The 100th percentile of a nonempty flat list is its common value. -/
theorem npPercentile_hundred_flat (k : Nat) (l : List Nat) (hne : l ≠ [])
    (h : ∀ v ∈ l, v = k) : npPercentile 100 l = k := by
  have hlen : 1 ≤ l.length := List.length_pos.mpr hne
  have hpos : (100 : ℚ) / 100 * ((l.length : ℚ) - 1) = ((l.length - 1 : ℕ) : ℚ) := by
    push_cast [hlen]
    ring
  have hidx : l.length - 1 < l.length := by omega
  have hget : ∀ i, i < l.length → ((l.getD i 0 : ℕ) : ℚ) = (k : ℚ) := by
    intro i hi
    rw [List.getD_eq_getElem l 0 hi, h _ (List.getElem_mem hi)]
  simp only [npPercentile, sortAsc_flat k l h, hpos, Int.floor_natCast, Int.toNat_natCast]
  rw [hget _ hidx, hget _ (by omega : (l.length - 1 + 1) ⊓ (l.length - 1) < l.length)]
  ring

/-- A sample equal to the flat value `k` normalizes to 0 under the guarded
bounds `low = k`, `high = k + 1`. -/
theorem autoNormSample_flat (k x : Nat) (hx : x = k) :
    autoNormSample (k : ℚ) ((k : ℚ) + 1) x = 0 := by
  rw [hx]
  have hval : ((k : ℚ) - (k : ℚ)) / ((k : ℚ) + 1 - (k : ℚ)) * 255 = 0 := by
    rw [sub_self, zero_div, zero_mul]
  rw [autoNormSample, hval]
  have hclip : npClip 0 255 (0 : ℚ) = 0 := by
    rw [npClip, min_eq_right (by norm_num), max_self]
  rw [hclip, toUInt8, Int.floor_zero, Int.toNat_zero]

/-- C4: on a fully flat 16-bit frame (all samples equal to `k`), auto
normalization with percentile bounds (0, 100) hits the `high = low + 1`
guard, the scaling divisor `high - low` equals 1 (so nothing divides by
zero and no error path exists in the model), and the output is the
constant 8-bit frame of zeros. -/
theorem flat_frame_auto_guard (gray16 : List (List Nat)) (k : Nat)
    (hne : gray16.flatten ≠ [])
    (hflat : ∀ v ∈ gray16.flatten, v = k) :
    autoLow 0 gray16 = k ∧
    autoHigh 0 100 gray16 = (k : ℚ) + 1 ∧
    autoHigh 0 100 gray16 - autoLow 0 gray16 = 1 ∧
    autoNormalize 0 100 gray16 = gray16.map (fun row => row.map fun _ => 0) := by
  have hlow : autoLow 0 gray16 = k := npPercentile_zero_flat k _ hne hflat
  have hraw : autoHighRaw 100 gray16 = k := npPercentile_hundred_flat k _ hne hflat
  have hhigh : autoHigh 0 100 gray16 = (k : ℚ) + 1 := by
    simp only [autoHigh]
    rw [hlow, hraw]
    simp
  refine ⟨hlow, hhigh, by rw [hlow, hhigh]; ring, ?_⟩
  simp only [autoNormalize]
  rw [hlow, hhigh]
  apply List.map_congr_left
  intro row hrow
  apply List.map_congr_left
  intro v hv
  exact autoNormSample_flat k v (hflat v (List.mem_flatten.mpr ⟨row, hrow, hv⟩))

/-- Witness for `flat_frame_auto_guard` on the flat 2-by-2 frame of 5s. -/
theorem flat_frame_auto_guard_witness :
    autoLow 0 [[5, 5], [5, 5]] = ((5 : ℕ) : ℚ) ∧
    autoHigh 0 100 [[5, 5], [5, 5]] = ((5 : ℕ) : ℚ) + 1 ∧
    autoHigh 0 100 [[5, 5], [5, 5]] - autoLow 0 [[5, 5], [5, 5]] = 1 ∧
    autoNormalize 0 100 [[5, 5], [5, 5]]
      = [[5, 5], [5, 5]].map (fun row => row.map fun _ => 0) :=
  flat_frame_auto_guard [[5, 5], [5, 5]] 5 (by decide) (by decide)

/-- C5: one reader append keeps `serial_rx_buffer` within capacity 10, and
after 11 successive appends to an initially empty log the first message is
absent (when distinct from the later ten) while the 11th is present; the
oldest record is the one evicted. -/
theorem rx_buffer_capacity_eviction
    (buf : List String) (msg m1 m2 m3 m4 m5 m6 m7 m8 m9 m10 m11 : String)
    (hlen : buf.length ≤ 10)
    (hfresh : m1 ∉ [m2, m3, m4, m5, m6, m7, m8, m9, m10, m11]) :
    (rxAppend buf msg).length ≤ 10 ∧
    List.foldl rxAppend [] [m1, m2, m3, m4, m5, m6, m7, m8, m9, m10, m11]
      = [m2, m3, m4, m5, m6, m7, m8, m9, m10, m11] ∧
    m1 ∉ List.foldl rxAppend [] [m1, m2, m3, m4, m5, m6, m7, m8, m9, m10, m11] ∧
    m11 ∈ List.foldl rxAppend [] [m1, m2, m3, m4, m5, m6, m7, m8, m9, m10, m11] := by
  have hfold : List.foldl rxAppend [] [m1, m2, m3, m4, m5, m6, m7, m8, m9, m10, m11]
      = [m2, m3, m4, m5, m6, m7, m8, m9, m10, m11] := by
    simp [rxAppend]
  refine ⟨?_, hfold, ?_, ?_⟩
  · simp only [rxAppend]
    split <;> simp_all
  · rw [hfold]; exact hfresh
  · rw [hfold]; simp

/-- Witness for `rx_buffer_capacity_eviction` on an empty log and eleven
distinct two-character messages. -/
theorem rx_buffer_capacity_eviction_witness :
    (rxAppend [] "00").length ≤ 10 ∧
    List.foldl rxAppend [] ["01", "02", "03", "04", "05", "06", "07", "08", "09", "0A", "0B"]
      = ["02", "03", "04", "05", "06", "07", "08", "09", "0A", "0B"] ∧
    "01" ∉ List.foldl rxAppend []
      ["01", "02", "03", "04", "05", "06", "07", "08", "09", "0A", "0B"] ∧
    "0B" ∈ List.foldl rxAppend []
      ["01", "02", "03", "04", "05", "06", "07", "08", "09", "0A", "0B"] :=
  rx_buffer_capacity_eviction [] "00" "01" "02" "03" "04" "05" "06" "07" "08" "09" "0A" "0B"
    (by decide) (by decide)

/-- C7 counterexample: `load_settings` assigns the persisted `range` value
without clamping, so a settings record holding `range = 0` puts a value
below 1 into `manual_range` — the claim that every mutation clamps to at
least 1 fails at this input. -/
theorem load_range_unclamped :
    load_manual_range { range := some 0 } < 1 := by
  decide

/-- C7 amended: the Range-slider mutation does clamp `manual_range` into
`[1, 65535]`, but `load_settings` assigns the persisted value unclamped, so
a persisted width below 1 can reach the per-frame normalization. -/
theorem manual_range_clamp_amended :
    (∀ x : Int, 1 ≤ range_slider_update x ∧ range_slider_update x ≤ 65535) ∧
    load_manual_range { range := some 0 } < 1 := by
  constructor
  · intro x
    simp only [range_slider_update, update_slider_value]
    omega
  · decide

/-- C8 counterexample: with the startup defaults (`selected_baud_index = 4`)
and a persisted record naming the enumerable port "COM3" with baud 9600,
`load_settings` attempts the reconnect at 115200 — `BAUD_RATES[4]` — and
not at the persisted 9600. -/
theorem reconnect_baud_mismatch :
    (load_serial_settings { last_serial_port := some "COM3", last_baud_rate := some 9600 }
        ["COM3"] 0 4).attempt = some ("COM3", 115200) ∧
    (load_serial_settings { last_serial_port := some "COM3", last_baud_rate := some 9600 }
        ["COM3"] 0 4).attempt ≠ some ("COM3", 9600) := by
  constructor <;> decide

/-- C8 amended: when the persisted record names a nonempty, currently
enumerable port, `load_settings` does attempt an automatic reconnect to it
— but at `BAUD_RATES[selected_baud_index]` as selected before the load, the
persisted baud having no effect on the attempt (it is restored into
`selected_baud_index` only afterwards). -/
theorem reconnect_uses_preload_baud (s : PersistedSettings) (ports : List String)
    (portIdx0 baudIdx0 : Nat) (p : String) (b : Option Nat)
    (hport : s.last_serial_port = some p) (hp : p ≠ "") (hmem : p ∈ ports) :
    (load_serial_settings s ports portIdx0 baudIdx0).attempt
      = some (p, BAUD_RATES.getD baudIdx0 0) ∧
    (load_serial_settings { s with last_baud_rate := b } ports portIdx0 baudIdx0).attempt
      = (load_serial_settings s ports portIdx0 baudIdx0).attempt := by
  constructor <;> simp [load_serial_settings, hport, hp, hmem]

/-- Witness for `reconnect_uses_preload_baud`: persisted port "COM3" with
persisted baud 9600, ports list ["COM3"], entry baud index 4. -/
theorem reconnect_uses_preload_baud_witness :
    (load_serial_settings { last_serial_port := some "COM3", last_baud_rate := some 9600 }
        ["COM3"] 0 4).attempt = some ("COM3", BAUD_RATES.getD 4 0) ∧
    (load_serial_settings
        { ({ last_serial_port := some "COM3", last_baud_rate := some 9600 } : PersistedSettings)
            with last_baud_rate := none } ["COM3"] 0 4).attempt
      = (load_serial_settings { last_serial_port := some "COM3", last_baud_rate := some 9600 }
          ["COM3"] 0 4).attempt :=
  reconnect_uses_preload_baud _ ["COM3"] 0 4 "COM3" none (by rfl) (by decide) (by decide)

/-- C9 counterexample: `save_settings` never consults the connection state;
with no live connection, ports ["COM3"] and selection index 0, it still
records "COM3" as `last_serial_port` instead of the `None` the claim
requires for a disconnected channel. -/
theorem save_port_ignores_connection :
    save_last_serial_port ⟨["COM3"], 0, 4, false⟩ = some "COM3" ∧
    save_last_serial_port ⟨["COM3"], 0, 4, false⟩ ≠ none := by
  constructor <;> decide

/-- C9 amended: `save_settings` records the currently selected port name
`available_ports[selected_port_index]` whenever the index is in range —
independently of whether a connection is open — together with the selected
baud `BAUD_RATES[selected_baud_index]`; `None` is recorded only when the
ports list is empty or the index is out of range. -/
theorem save_port_selected_independent (ports : List String) (pidx bidx : Nat)
    (c : Bool) (h : pidx < ports.length) :
    save_last_serial_port ⟨ports, pidx, bidx, c⟩ = some (ports.getD pidx "") ∧
    save_last_serial_port ⟨ports, pidx, bidx, true⟩
      = save_last_serial_port ⟨ports, pidx, bidx, false⟩ ∧
    save_last_baud_rate ⟨ports, pidx, bidx, c⟩ = BAUD_RATES.getD bidx 0 := by
  have hne : ports ≠ [] := List.ne_nil_of_length_pos (by omega)
  refine ⟨?_, ?_, rfl⟩ <;> simp [save_last_serial_port, hne, h]

/-- Witness for `save_port_selected_independent` at ports ["COM3"], index 0,
baud index 4, disconnected. -/
theorem save_port_selected_independent_witness :
    save_last_serial_port ⟨["COM3"], 0, 4, false⟩ = some (["COM3"].getD 0 "") ∧
    save_last_serial_port ⟨["COM3"], 0, 4, true⟩
      = save_last_serial_port ⟨["COM3"], 0, 4, false⟩ ∧
    save_last_baud_rate ⟨["COM3"], 0, 4, false⟩ = BAUD_RATES.getD 4 0 :=
  save_port_selected_independent ["COM3"] 0 4 false (by decide)

end Titan1280
